import Mathlib

/-!
Verification of the OpenClaw Railway wrapper server (`src/index.js`).

The development shallowly embeds the pieces of the wrapper that the claims
are about:

* the tar-entry traversal-safety predicate `looksSafeTarPath`;
* the extraction step of the import handler (`tar.x` with a `filter`
  callback, as the handler invokes it);
* the gateway process supervisor (`ensureGatewayRunning`, `startGateway`,
  the readiness probe resolution) as an event-loop step relation;
* the `/setup/import` route handler, including `readBodyBuffer`;
* the `/setup/api/console/run` allowlisted command dispatcher;
* the raw-config write path (backup-then-overwrite);
* the `runCmd` promise wrapper around `child_process.spawn`.

JavaScript strings are modelled as Lean `String` (whose `data` field is the
list of characters); file systems are modelled as partial maps from path
strings to file contents.
-/

namespace ClawWrap

/-! ## File-system model -/

/-- A file system is a partial map from path to file content. -/
def Fsys : Type := String → Option String

/-- The empty file system (used by concrete scenarios). -/
def emptyFs : Fsys := fun _ => none

/-! ## Traversal-safety predicate (`looksSafeTarPath`, source lines 1256-1265)

The source operates on JavaScript strings:

```js
function looksSafeTarPath(p) {
  if (!p) return false;
  if (p.startsWith("/") || p.startsWith("\\")) return false;
  if (/^[A-Za-z]:[\\/]/.test(p)) return false;
  if (p.split("/").includes("..")) return false;
  return true;
}
```

The character-level helpers below embed the JavaScript string operations:
`startsWith` with a one-character argument tests the first character; the
regex `^[A-Za-z]:[\\/]` tests the first three characters; `split("/")`
splits the character list at every `'/'`.
-/

/-- JavaScript `p.split("/")` on the character list: split at every slash.
`splitSlash [] = [[]]`, matching `"".split("/") = [""]`. -/
def splitSlash (l : List Char) : List (List Char) :=
  l.foldr
    (fun c acc =>
      if c = '/' then [] :: acc
      else
        match acc with
        | s :: ss => (c :: s) :: ss
        | [] => [[c]])
    [[]]

/-- JavaScript `p.startsWith("/") || p.startsWith("\\")`: the first
character is a separator. -/
def headIsSep (l : List Char) : Bool :=
  match l with
  | c :: _ => c = '/' || c = '\\'
  | [] => false

/-- JavaScript regex test `/^[A-Za-z]:[\\/]/.test(p)`: an ASCII letter,
a colon, then a slash or backslash. -/
def driveQualified (l : List Char) : Bool :=
  match l with
  | a :: b :: d :: _ => a.isAlpha && b = ':' && (d = '/' || d = '\\')
  | _ => false

/-- `looksSafeTarPath` over the path's characters, clause for clause from
the source: empty is unsafe; a leading separator is unsafe; a drive-letter
style beginning is unsafe; a `..` component of the slash-split is unsafe;
everything else is safe. -/
def looksSafeChars (l : List Char) : Bool :=
  if l = [] then false
  else if headIsSep l then false
  else if driveQualified l then false
  else if (splitSlash l).contains (['.', '.']) then false
  else true

/-- The traversal-safety predicate on tar entry paths (source lines
1256-1265). -/
def looksSafeTarPath (p : String) : Bool :=
  looksSafeChars p.data

/-! Specification-side predicates for claim C4, taken from the claim's own
wording rather than from the source: a path is rejected when it is
absolute (starts with a separator), contains a parent-directory `..`
segment (tar paths are `/`-separated), or has a drive-letter-style
prefix letter-colon-separator. -/

/-- Claim wording: the path starts with a separator character. -/
def SpecAbsolute (l : List Char) : Prop :=
  ∃ c rest, l = c :: rest ∧ (c = '/' ∨ c = '\\')

/-- Claim wording: the path has a drive-letter-style beginning - a letter,
a colon, and a separator. -/
def SpecDrive (l : List Char) : Prop :=
  ∃ a d rest, l = a :: ':' :: d :: rest ∧ a.isAlpha = true ∧ (d = '/' ∨ d = '\\')

/-- Claim wording: some `/`-separated segment of the path is `..`. -/
def SpecParentSeg (l : List Char) : Prop :=
  ['.', '.'] ∈ splitSlash l

/-! ## Import extraction (`tar.x` with `filter`, source lines 1313-1323)

The tar library is external to the repository; per its documented
semantics, the `filter` callback is consulted for each entry and an entry
for which it returns `false` is *skipped* (not extracted), while
extraction continues with the remaining entries. Extraction of an
accepted entry writes its content at its path under the extraction root.
-/

/-- One entry of an uploaded archive: a path (relative to the extraction
root) and its payload. -/
structure ArchiveEntry where
  path : String
  content : String
deriving DecidableEq

/-- `tar.x` with a `filter` callback: entries whose path is accepted by
the filter are written in order; rejected entries are skipped and
extraction continues. -/
def tarX (fsys : Fsys) (entries : List ArchiveEntry) (fil : String → Bool) : Fsys :=
  entries.foldl
    (fun fs e =>
      if fil e.path then (fun q => if q = e.path then some e.content else fs q)
      else fs)
    fsys

/-- The import handler's extraction step (source lines 1313-1323):
`tar.x` filtered by `looksSafeTarPath`. -/
def importExtract (fsys : Fsys) (entries : List ArchiveEntry) : Fsys :=
  tarX fsys entries (fun p => looksSafeTarPath p)

/-- Concrete archive for the C1 scenario: one traversal entry and one
ordinary entry. -/
def c1Entries : List ArchiveEntry :=
  [⟨"../../etc/passwd", "pwned"⟩, ⟨"workspace/a.txt", "hello"⟩]

/-! ## Gateway supervisor (`ensureGatewayRunning`, source lines 369-394)

The wrapper is single-threaded and event-driven. Module state consists of
`gatewayProc` (the child handle, here: whether it is non-null),
`gatewayStarting` (the in-flight start promise, here: whether one exists),
and the breadcrumb `lastGatewayError`. A call to `ensureGatewayRunning`
runs synchronously up to its first suspension point:

```js
if (!isConfigured()) return { ok: false, reason: "not configured" };
if (gatewayProc) return { ok: true };
if (!gatewayStarting) { gatewayStarting = (async () => { ... })().finally(...); }
await gatewayStarting;
return { ok: true };
```

Creating the start promise runs the async IIFE synchronously through
`startGateway()` (which has no internal suspension point before
`childProcess.spawn` sets `gatewayProc`), so the spawn and the setting of
`gatewayProc` happen inside the caller's synchronous prefix. The IIFE then
suspends in `waitForGatewayReady`; its resolution (readiness success) or
rejection (readiness deadline elapsed, the thrown
`Gateway did not become ready in time`) is delivered later by the event
loop, settling every caller awaiting `gatewayStarting` with that same
outcome and clearing `gatewayStarting` via `finally`. The child's `exit` /
`error` events clear `gatewayProc` asynchronously.

The model is a step relation on the supervisor state plus a family of
callers; each event is one atomic event-loop turn.
-/

/-- Result a single `ensureGatewayRunning()` caller ends with. -/
inductive Outcome where
  | notConfigured
  | ok
  | failed
deriving DecidableEq

/-- Where one caller of `ensureGatewayRunning()` currently stands. -/
inductive CallerSt where
  | idle
  | waiting
  | done (o : Outcome)
deriving DecidableEq

/-- The wrapper's supervisor module state. -/
structure Sup where
  configured : Bool
  gatewayProc : Bool
  starting : Bool
  spawnCount : Nat
  lastError : Option String
deriving DecidableEq

/-- Supervisor state together with the states of the callers. -/
structure Sys where
  sup : Sup
  callers : Nat → CallerSt

/-- Event-loop turns: caller `i` begins `ensureGatewayRunning()`; the
in-flight start attempt resolves (readiness success) or rejects (readiness
deadline elapsed); the child's `exit`/`error` event fires. -/
inductive Ev where
  | enter (i : Nat)
  | resolveOk
  | resolveFail
  | procExit
deriving DecidableEq

/-- The error breadcrumb recorded when the readiness deadline elapses. -/
def gatewayTimeoutMsg : String :=
  "[gateway] start failure: Error: Gateway did not become ready in time"

/-- Update one caller's state. -/
def setCaller (f : Nat → CallerSt) (i : Nat) (c : CallerSt) : Nat → CallerSt :=
  fun j => if j = i then c else f j

/-- Settle every caller awaiting `gatewayStarting` with outcome `o`. -/
def resolveWaiters (f : Nat → CallerSt) (o : Outcome) : Nat → CallerSt :=
  fun j => match f j with
    | .waiting => .done o
    | c => c

/-- One event-loop turn of the supervisor model. `enter i` is the
synchronous prefix of `ensureGatewayRunning()`: the not-configured early
return, the running early return, attaching to an in-flight start, or
creating the start attempt (which synchronously spawns the child, setting
`gatewayProc` and clearing `lastError`). `resolveOk` / `resolveFail`
settle the in-flight attempt for every waiter; the rejection records the
readiness-timeout breadcrumb but does not touch `gatewayProc`. `procExit`
clears the child handle. -/
def stepSys (s : Sys) : Ev → Sys
  | .enter i =>
    match s.callers i with
    | .idle =>
      if s.sup.configured = false then
        { s with callers := setCaller s.callers i (.done .notConfigured) }
      else if s.sup.gatewayProc = true then
        { s with callers := setCaller s.callers i (.done .ok) }
      else if s.sup.starting = true then
        { s with callers := setCaller s.callers i .waiting }
      else
        { sup := { s.sup with
                    starting := true
                    gatewayProc := true
                    spawnCount := s.sup.spawnCount + 1
                    lastError := none },
          callers := setCaller s.callers i .waiting }
    | _ => s
  | .resolveOk =>
    if s.sup.starting = true then
      { sup := { s.sup with starting := false },
        callers := resolveWaiters s.callers .ok }
    else s
  | .resolveFail =>
    if s.sup.starting = true then
      { sup := { s.sup with starting := false, lastError := some gatewayTimeoutMsg },
        callers := resolveWaiters s.callers .failed }
    else s
  | .procExit =>
    if s.sup.gatewayProc = true then
      { s with sup := { s.sup with gatewayProc := false } }
    else s

/-- Run a list of event-loop turns. -/
def runSys (s : Sys) (evs : List Ev) : Sys :=
  evs.foldl stepSys s

/-- Initial state for the concurrency scenarios: configured, no child, no
start attempt in flight, everybody idle. -/
def initSys : Sys :=
  { sup := { configured := true
             gatewayProc := false
             starting := false
             spawnCount := 0
             lastError := none },
    callers := fun _ => .idle }

/-! ## Import route (`POST /setup/import`, source lines 1267-1337)

```js
async function readBodyBuffer(req, maxBytes) { ... }   // lines 1267-1283
app.post("/setup/import", requireSetupAuth, async (req, res) => { ... });
```

The handler: (1) rejects with 400 unless both state and workspace dirs are
under `/data`; (2) stops the gateway (kill + clear handle); (3) buffers
the body, rejecting once the running total exceeds 250MB - the rejection
propagates to the handler's `catch`, which answers with status 500;
(4) rejects an empty body with 400; (5) writes the buffered upload to a
temporary file, extracts it with the `looksSafeTarPath` filter, removes
the temporary file, and, if a configuration file now exists, restarts the
gateway (which spawns; a readiness failure there also lands in the
`catch` as a 500). The model keys the extracted files by path relative to
`/data` and takes the configuration file's relative path as a parameter.
-/

/-- Hard ceiling on the import upload size (250MB). -/
def MAX_IMPORT_BYTES : Nat := 250 * 1024 * 1024

/-- `readBodyBuffer`: fold the chunk sizes, rejecting as soon as the
running total exceeds `maxB`. Returns (`some` total or `none` for the
payload-too-large rejection, number of chunks consumed). -/
def readBodyBuffer : List Nat → Nat → Nat → Nat → Option Nat × Nat
  | [], _, total, consumed => (some total, consumed)
  | c :: rest, maxB, total, consumed =>
    if maxB < total + c then (none, consumed + 1)
    else readBodyBuffer rest maxB (total + c) (consumed + 1)

/-- Wrapper state the import route touches: the child handle, the files
under `/data` (by relative path), and whether the temporary upload file is
on disk. -/
structure WrapSt where
  gatewayProc : Bool
  dataFiles : Fsys
  tmpWritten : Bool

/-- An HTTP response: status code and plain-text body. -/
structure ImportResp where
  status : Nat
  body : String
deriving DecidableEq

/-- The `POST /setup/import` handler. `underData` is the check that both
state and workspace dirs resolve under `/data`; `restartFails` is whether
the final gateway restart's readiness wait fails; `configRel` is the
configuration file's path relative to `/data`; `chunks` are the upload's
chunk sizes; `entries` the decoded archive. -/
def importRoute (underData restartFails : Bool) (configRel : String)
    (st : WrapSt) (chunks : List Nat) (entries : List ArchiveEntry) :
    WrapSt × ImportResp :=
  if underData = false then
    (st, ⟨400, "Import is only supported when OPENCLAW_STATE_DIR and OPENCLAW_WORKSPACE_DIR are under /data (Railway volume).\n"⟩)
  else
    let st1 : WrapSt := { st with gatewayProc := false }
    match readBodyBuffer chunks MAX_IMPORT_BYTES 0 0 with
    | (none, _) => (st1, ⟨500, "Error: payload too large"⟩)
    | (some total, _) =>
      if total = 0 then (st1, ⟨400, "Empty body\n"⟩)
      else
        let st2 : WrapSt := { st1 with tmpWritten := true }
        let files2 := importExtract st2.dataFiles entries
        let st3 : WrapSt := { st2 with dataFiles := files2, tmpWritten := false }
        if (files2 configRel).isSome then
          let st4 : WrapSt := { st3 with gatewayProc := true }
          if restartFails then (st4, ⟨500, gatewayTimeoutMsg⟩)
          else (st4, ⟨200, "OK - imported backup into /data and restarted gateway.\n"⟩)
        else (st3, ⟨200, "OK - imported backup into /data and restarted gateway.\n"⟩)

/-! ## Debug console (`POST /setup/api/console/run`, source lines 1008-1119)

The handler trims `payload.cmd` and `payload.arg`, rejects identifiers
outside `ALLOWED_CONSOLE_COMMANDS` with a 400, and dispatches through an
if-chain. `gateway.restart` / `gateway.stop` / `gateway.start` are handled
inside the wrapper; every other branch spawns the CLI via
`runCmd(OPENCLAW_NODE, clawArgs(args))`. `openclaw.devices.approve` and
`openclaw.plugins.enable` validate their parameter against
`/^[A-Za-z0-9_-]+$/` before spawning; `openclaw.config.get` only checks
non-emptiness; `openclaw.logs.tail` clamps
`Number.parseInt(arg || "200", 10) || 200` into `[50, 1000]`.
-/

/-- What one console request does first: answer with an error response,
perform a wrapper-managed gateway lifecycle operation, or spawn the CLI
with the given argument vector. -/
inductive ConsoleAction where
  | reject (status : Nat) (error : String)
  | wrapperOp (name : String)
  | spawnCli (args : List String)
deriving DecidableEq

/-- The closed console command allowlist (source lines 1008-1029). -/
def ALLOWED_CONSOLE_COMMANDS : List String :=
  ["gateway.restart", "gateway.stop", "gateway.start",
   "openclaw.version", "openclaw.status", "openclaw.health",
   "openclaw.doctor", "openclaw.logs.tail", "openclaw.config.get",
   "openclaw.devices.list", "openclaw.devices.approve",
   "openclaw.plugins.list", "openclaw.plugins.enable"]

/-- The restrictive parameter character class `/^[A-Za-z0-9_-]+$/`:
non-empty, every character a letter, digit, dash or underscore. -/
def paramOk (s : String) : Bool :=
  !(s = "") && s.data.all (fun c => c.isAlphanum || c = '_' || c = '-')

/-- An ASCII whitespace character (the characters JavaScript
`String.prototype.trim` strips, restricted to ASCII). -/
def isJsSpace (c : Char) : Bool :=
  c = ' ' || c = '\t' || c = '\n' || c = '\r'

/-- JavaScript `s.trim()`: strip whitespace from both ends. -/
def jsTrim (s : String) : String :=
  ⟨((s.data.dropWhile isJsSpace).reverse.dropWhile isJsSpace).reverse⟩

/-- Longest leading run of decimal digits, `none` when there is none
(JavaScript `parseInt` yields `NaN` then). -/
def leadDigits (l : List Char) : Option Nat :=
  let ds := l.takeWhile Char.isDigit
  if ds = [] then none
  else some (ds.foldl (fun n c => n * 10 + (c.toNat - 48)) 0)

/-- JavaScript `Number.parseInt(s, 10)` on an already-trimmed string:
optional sign, then the longest digit run; `none` models `NaN`. -/
def jsParseInt (s : String) : Option Int :=
  match s.data with
  | '-' :: rest => (leadDigits rest).map (fun n => -(n : Int))
  | '+' :: rest => (leadDigits rest).map (fun n => (n : Int))
  | _ => (leadDigits s.data).map (fun n => (n : Int))

/-- The `openclaw.logs.tail` line count:
`Math.max(50, Math.min(1000, Number.parseInt(arg || "200", 10) || 200))`
(`|| 200` also replaces a parsed `0`, which is falsy). -/
def tailLines (arg : String) : Int :=
  let parsed : Int :=
    match jsParseInt (if arg = "" then "200" else arg) with
    | none => 200
    | some v => if v = 0 then 200 else v
  max 50 (min 1000 parsed)

/-- The console dispatcher over the already-trimmed `cmd` and `arg`
(source lines 1031-1119), branch for branch. -/
def consoleRun (cmd arg : String) : ConsoleAction :=
  if !(ALLOWED_CONSOLE_COMMANDS.contains cmd) then
    .reject 400 ("Command not allowed")
  else if cmd = "gateway.restart" then .wrapperOp ("restart")
  else if cmd = "gateway.stop" then .wrapperOp ("stop")
  else if cmd = "gateway.start" then .wrapperOp ("start")
  else if cmd = "openclaw.version" then .spawnCli (["--version"])
  else if cmd = "openclaw.status" then .spawnCli (["status"])
  else if cmd = "openclaw.health" then .spawnCli (["health"])
  else if cmd = "openclaw.doctor" then .spawnCli (["doctor"])
  else if cmd = "openclaw.logs.tail" then
    .spawnCli (["logs", "--tail", toString (tailLines arg)])
  else if cmd = "openclaw.config.get" then
    if arg = "" then .reject 400 ("Missing config path")
    else .spawnCli (["config", "get", arg])
  else if cmd = "openclaw.devices.list" then .spawnCli (["devices", "list"])
  else if cmd = "openclaw.devices.approve" then
    let requestId := jsTrim arg
    if requestId = "" then .reject 400 ("Missing device request ID")
    else if !(paramOk requestId) then .reject 400 ("Invalid device request ID")
    else .spawnCli (["devices", "approve", requestId])
  else if cmd = "openclaw.plugins.list" then .spawnCli (["plugins", "list"])
  else if cmd = "openclaw.plugins.enable" then
    let name := jsTrim arg
    if name = "" then .reject 400 ("Missing plugin name")
    else if !(paramOk name) then .reject 400 ("Invalid plugin name")
    else .spawnCli (["plugins", "enable", name])
  else .reject 400 ("Unhandled command")

/-- The route entry: `String(payload.cmd || "").trim()` and
`String(payload.arg || "").trim()` before dispatch. -/
def consoleEndpoint (cmdRaw argRaw : String) : ConsoleAction :=
  consoleRun (jsTrim cmdRaw) (jsTrim argRaw)

/-! ## Raw-config write (`POST /setup/api/config/raw`, source lines 1141-1148)

```js
const p = configPath();
if (fs.existsSync(p)) {
  const backupPath = `${p}.bak-${new Date().toISOString().replace(/[:.]/g, "-")}`;
  fs.copyFileSync(p, backupPath);
}
fs.writeFileSync(p, content, { encoding: "utf8", mode: 0o600 });
```

The wall-clock timestamp string is a parameter of the model.
-/

/-- `ts.replace(/[:.]/g, "-")`: every colon or dot becomes a dash. -/
def sanitizeStamp (t : String) : String :=
  ⟨t.data.map (fun c => if c = ':' || c = '.' then '-' else c)⟩

/-- The backup file name for config path `p` at timestamp `t`. -/
def backupPath (p t : String) : String :=
  p ++ (".bak-" ++ sanitizeStamp t)

/-- The write path of the raw-config handler: when the file exists, copy
it to the timestamped backup, then overwrite it with `content`. -/
def writeRaw (fsys : Fsys) (p content t : String) : Fsys :=
  match fsys p with
  | some old =>
    fun q =>
      if q = p then some content
      else if q = backupPath p t then some old
      else fsys q
  | none =>
    fun q => if q = p then some content else fsys q

/-! ## `runCmd` (source lines 773-795)

```js
function runCmd(cmd, args, opts = {}) {
  return new Promise((resolve) => {
    const proc = childProcess.spawn(cmd, args, {...});
    let out = "";
    proc.stdout?.on("data", (d) => (out += d.toString("utf8")));
    proc.stderr?.on("data", (d) => (out += d.toString("utf8")));
    proc.on("error", (err) => { out += `\n[spawn error] ${String(err)}\n`; resolve({ code: 127, output: out }); });
    proc.on("close", (code) => resolve({ code: code ?? 0, output: out }));
  });
}
```

The executor only ever calls `resolve`; a second `resolve` is a no-op.
The model replays the child's event sequence against the handlers;
`errorEvt` carries the already-stringified `String(err)`.
-/

/-- Events the spawned child can deliver to `runCmd`'s handlers. -/
inductive ProcEvent where
  | outData (s : String)
  | errData (s : String)
  | errorEvt (msg : String)
  | closeEvt (code : Option Int)
deriving DecidableEq

/-- The `{code, output}` record `runCmd` resolves with. -/
structure CmdResult where
  code : Int
  output : String
deriving DecidableEq

/-- Settlement state of the promise `runCmd` returns. -/
inductive PromiseSt where
  | pending
  | resolved (r : CmdResult)
  | rejected (msg : String)
deriving DecidableEq

/-- The text the `error` handler appends: `\n[spawn error] ${String(err)}\n`. -/
def spawnErrLine (m : String) : String :=
  "\n[spawn error] " ++ m ++ "\n"

/-- One child event against `runCmd`'s handlers: `data` events append to
`out`; `error` appends the spawn-error note and resolves with code 127;
`close` resolves with the exit code, a `null` code becoming 0. `resolve`
after settlement is a no-op. -/
def runCmdStep (acc : String × PromiseSt) (e : ProcEvent) : String × PromiseSt :=
  match e with
  | .outData s => (acc.1 ++ s, acc.2)
  | .errData s => (acc.1 ++ s, acc.2)
  | .errorEvt m =>
    let out := acc.1 ++ spawnErrLine m
    (out,
      match acc.2 with
      | .pending => .resolved ⟨127, out⟩
      | st => st)
  | .closeEvt c =>
    (acc.1,
      match acc.2 with
      | .pending => .resolved ⟨c.getD 0, acc.1⟩
      | st => st)

/-- The promise's settlement after the child delivered `evs`. -/
def runCmdModel (evs : List ProcEvent) : PromiseSt :=
  (evs.foldl runCmdStep ("", .pending)).2

/-- Whether an event settles the promise. -/
def isTerminal (e : ProcEvent) : Bool :=
  match e with
  | .errorEvt _ => true
  | .closeEvt _ => true
  | _ => false

/-- Concatenated output text of a run of data events. -/
def dataText : List ProcEvent → String
  | [] => ""
  | .outData s :: rest => s ++ dataText rest
  | .errData s :: rest => s ++ dataText rest
  | _ :: rest => dataText rest

/-! ## Router (`app.use` catch-all, lines 1350-1373; `server.on("upgrade")`,
lines 1398-1410)

Requests to the registered administrative routes are dispatched locally;
everything else reaches the catch-all:

```js
app.use(async (req, res) => {
  if (!isConfigured() && !req.path.startsWith("/setup")) return res.redirect("/setup");
  if (isConfigured()) { try { await ensureGatewayRunning(); } catch (err) { return res.status(503)... } }
  return proxy.web(req, res, { target: GATEWAY_TARGET });
});
server.on("upgrade", async (req, socket, head) => {
  if (!isConfigured()) { socket.destroy(); return; }
  try { await ensureGatewayRunning(); } catch { socket.destroy(); return; }
  proxy.ws(req, socket, head, { target: GATEWAY_TARGET });
});
```

`ensureOk` abstracts whether the awaited `ensureGatewayRunning()` call
returns rather than throwing. HTTP methods are not modelled: dispatch is
by path, which suffices for the routing claims.
-/

/-- Character-list prefix test (first argument is the candidate prefix). -/
def isPrefixChars : List Char → List Char → Bool
  | [], _ => true
  | _ :: _, [] => false
  | c :: cs, d :: ds => c = d && isPrefixChars cs ds

/-- JavaScript `s.startsWith(pat)`. -/
def jsStartsWith (s pat : String) : Bool :=
  isPrefixChars pat.data s.data

/-- Paths of the registered administrative routes, in registration order. -/
def adminPaths : List String :=
  ["/setup/healthz", "/healthz", "/setup/app.js", "/setup",
   "/setup/api/status", "/setup/api/auth-groups", "/setup/api/run",
   "/setup/api/debug", "/setup/api/console/run", "/setup/api/config/raw",
   "/setup/api/pairing/approve", "/setup/api/devices/pending",
   "/setup/api/devices/approve", "/setup/api/reset", "/setup/export",
   "/setup/import"]

/-- How the wrapper answers one plain HTTP request. -/
inductive RouteResult where
  | localHandler
  | redirect (loc : String)
  | unavailable
  | proxied
deriving DecidableEq

/-- Routing of one plain HTTP request: a registered administrative route
is handled locally; otherwise the catch-all redirects unconfigured
non-`/setup` traffic, answers 503 when `ensureGatewayRunning()` throws,
and proxies the rest. -/
def routeRequest (configured ensureOk : Bool) (p : String) : RouteResult :=
  if p ∈ adminPaths then .localHandler
  else if !configured && !(jsStartsWith p ("/setup")) then .redirect ("/setup")
  else if configured && !ensureOk then .unavailable
  else .proxied

/-- How the wrapper answers one protocol-upgrade handshake. -/
inductive UpgradeResult where
  | destroyed
  | tunneled
deriving DecidableEq

/-- The `upgrade` listener: destroy the socket when unconfigured or when
`ensureGatewayRunning()` throws; otherwise tunnel the connection. -/
def handleUpgrade (configured ensureOk : Bool) : UpgradeResult :=
  if !configured then .destroyed
  else if !ensureOk then .destroyed
  else .tunneled

/-! Concrete states used by the closed scenarios. -/

/-- A system whose configuration store reports no configuration. -/
def unconfSys : Sys :=
  { sup := { configured := false
             gatewayProc := false
             starting := false
             spawnCount := 0
             lastError := none },
    callers := fun _ => .idle }

/-- Wrapper state before the C5 import scenario: gateway running, empty
volume. -/
def c5State : WrapSt :=
  { gatewayProc := true, dataFiles := emptyFs, tmpWritten := false }

/-- A file system holding one configuration file, for the C9 scenario. -/
def c9Fs : Fsys :=
  fun q => if q = "openclaw.json" then some ("old-content") else none

/-! # Theorems -/

/-! ## C4 - the traversal-safety predicate characterization -/

theorem headIsSep_iff (l : List Char) : headIsSep l = true ↔ SpecAbsolute l := by
  cases l with
  | nil => simp [headIsSep, SpecAbsolute]
  | cons c rest => simp [headIsSep, SpecAbsolute]

theorem driveQualified_iff (l : List Char) : driveQualified l = true ↔ SpecDrive l := by
  rcases l with _ | ⟨a, _ | ⟨b, _ | ⟨d, rest⟩⟩⟩ <;>
    (simp [driveQualified, SpecDrive]; try aesop)

theorem contains_dotdot_iff (l : List Char) :
    (splitSlash l).contains (['.', '.']) = true ↔ SpecParentSeg l := by
  unfold SpecParentSeg
  exact List.elem_iff

theorem looksSafeChars_iff (l : List Char) :
    looksSafeChars l = true ↔
      (l ≠ [] ∧ headIsSep l = false ∧ driveQualified l = false ∧
        (splitSlash l).contains (['.', '.']) = false) := by
  unfold looksSafeChars
  split_ifs with h1 h2 h3 h4 <;> simp_all

/-- C4: the traversal-safety predicate rejects exactly the unsafe archive
entry paths - it returns `false` precisely when the path is empty,
absolute (starts with a separator), contains a parent-directory `..`
segment of its `/`-split, or has a drive-letter-style beginning, and
returns `true` for every other (non-empty relative) path. -/
theorem c4_predicate_characterization (p : String) :
    looksSafeTarPath p = true ↔
      (p ≠ "" ∧ ¬SpecAbsolute p.data ∧ ¬SpecParentSeg p.data ∧ ¬SpecDrive p.data) := by
  obtain ⟨l⟩ := p
  show looksSafeChars l = true ↔ _
  rw [looksSafeChars_iff]
  have e : ((⟨l⟩ : String) ≠ "") ↔ l ≠ [] := by
    simp [String.ext_iff]
  have eA : headIsSep l = false ↔ ¬SpecAbsolute l := by
    simp [← headIsSep_iff]
  have eD : driveQualified l = false ↔ ¬SpecDrive l := by
    simp [← driveQualified_iff]
  have eP : (splitSlash l).contains (['.', '.']) = false ↔ ¬SpecParentSeg l := by
    simp [← contains_dotdot_iff]
  rw [e, eA, eD, eP]
  exact ⟨fun ⟨a, b, c, d⟩ => ⟨a, b, d, c⟩, fun ⟨a, b, c, d⟩ => ⟨a, b, d, c⟩⟩

/-! ## C1 - import is filter-based skip-and-continue, not fail-closed -/

/-- C1 counterexample: an archive holding the traversal entry
`../../etc/passwd` and the ordinary entry `workspace/a.txt` is imported
into an empty storage root - the unsafe entry does not abort the import,
and the storage root is changed (the safe entry is written), contradicting
the claimed fail-closed abort with a byte-for-byte unchanged root. -/
theorem c1_fail_closed_cex :
    looksSafeTarPath ("../../etc/passwd") = false ∧
    emptyFs ("workspace/a.txt") = none ∧
    importExtract emptyFs c1Entries ("workspace/a.txt") = some ("hello") := by
  refine ⟨by decide, rfl, by decide⟩

/-- C1 amended: an entry whose path fails `looksSafeTarPath` is skipped -
extraction simply continues with the remaining entries - and a path that
is only targeted by unsafe entries is never written; but safe entries of
the same archive are still extracted (skip-and-continue, not
fail-closed). -/
theorem c1_skip_and_continue (fsys : Fsys) (e : ArchiveEntry)
    (rest entries : List ArchiveEntry) (q : String) :
    (looksSafeTarPath e.path = false →
      importExtract fsys (e :: rest) = importExtract fsys rest) ∧
    ((∀ a ∈ entries, looksSafeTarPath a.path = true → a.path ≠ q) →
      importExtract fsys entries q = fsys q) := by
  constructor
  · intro h
    simp [importExtract, tarX, h]
  · intro h
    induction entries generalizing fsys with
    | nil => rfl
    | cons a tl ih =>
      have ha := h a (List.mem_cons_self a tl)
      have htl : ∀ b ∈ tl, looksSafeTarPath b.path = true → b.path ≠ q :=
        fun b hb => h b (List.mem_cons_of_mem a hb)
      by_cases hsafe : looksSafeTarPath a.path = true
      · have hne : a.path ≠ q := ha hsafe
        have hstep : importExtract fsys (a :: tl) =
            importExtract (fun r => if r = a.path then some a.content else fsys r) tl := by
          simp [importExtract, tarX, hsafe]
        rw [hstep, ih _ htl, if_neg (fun hq : q = a.path => hne hq.symm)]
      · have hsafe2 : looksSafeTarPath a.path = false := by
          simpa using hsafe
        show importExtract fsys (a :: tl) q = fsys q
        have hskip : importExtract fsys (a :: tl) = importExtract fsys tl := by
          simp [importExtract, tarX, hsafe2]
        rw [hskip]
        exact ih _ htl

/-- Witness for the amended C1 theorem at concrete inputs. -/
theorem c1_skip_and_continue_witness :
    looksSafeTarPath ("../../etc/passwd") = false ∧
    importExtract emptyFs ([⟨"../../etc/passwd", "pwned"⟩]) = importExtract emptyFs [] ∧
    (∀ a ∈ c1Entries, looksSafeTarPath a.path = true → a.path ≠ "../../etc/passwd") ∧
    importExtract emptyFs c1Entries ("../../etc/passwd") = emptyFs ("../../etc/passwd") :=
  ⟨by decide,
   (c1_skip_and_continue emptyFs ⟨"../../etc/passwd", "pwned"⟩ [] c1Entries
      ("../../etc/passwd")).1 (by decide),
   by decide,
   (c1_skip_and_continue emptyFs ⟨"../../etc/passwd", "pwned"⟩ [] c1Entries
      ("../../etc/passwd")).2 (by decide)⟩

/-! ## C2, C3, C8 - supervisor traces -/

theorem runSys_append (s : Sys) (l1 l2 : List Ev) :
    runSys s (l1 ++ l2) = runSys (runSys s l1) l2 :=
  List.foldl_append stepSys s l1 l2

theorem runSys_procExits (pre : List Ev) (h : ∀ e ∈ pre, e = Ev.procExit) :
    runSys initSys pre = initSys := by
  induction pre with
  | nil => rfl
  | cons e t ih =>
    have he : e = Ev.procExit := h e (List.mem_cons_self e t)
    subst he
    have hstep : stepSys initSys Ev.procExit = initSys := rfl
    show runSys (stepSys initSys Ev.procExit) t = initSys
    rw [hstep]
    exact ih (fun x hx => h x (List.mem_cons_of_mem _ hx))

/-- After the first caller enters from the initial state, the attempt is
in flight, the child handle is set, and exactly one spawn has happened. -/
theorem stepSys_enter_init (i : Nat) :
    stepSys initSys (Ev.enter i) =
      { sup := { configured := true
                 gatewayProc := true
                 starting := true
                 spawnCount := 1
                 lastError := none },
        callers := setCaller initSys.callers i .waiting } := rfl

/-- Invariant while the single start attempt is in flight. -/
def SpawnInv (s : Sys) : Prop :=
  s.sup.starting = true ∧ s.sup.spawnCount = 1

theorem spawnInv_step (s : Sys) (e : Ev)
    (he : e = Ev.procExit ∨ ∃ k, e = Ev.enter k) (h : SpawnInv s) :
    SpawnInv (stepSys s e) := by
  obtain ⟨h1, h2⟩ := h
  rcases he with rfl | ⟨k, rfl⟩
  · simp only [stepSys]
    split <;> exact ⟨h1, h2⟩
  · simp only [stepSys]
    cases hc : s.callers k with
    | idle =>
      split_ifs <;> exact ⟨h1, h2⟩
    | waiting => exact ⟨h1, h2⟩
    | done o => exact ⟨h1, h2⟩

theorem spawnInv_run (post : List Ev) (s : Sys)
    (hp : ∀ e ∈ post, e = Ev.procExit ∨ ∃ k, e = Ev.enter k) (h : SpawnInv s) :
    SpawnInv (runSys s post) := by
  induction post generalizing s with
  | nil => exact h
  | cons e t ih =>
    show SpawnInv (runSys (stepSys s e) t)
    exact ih (stepSys s e)
      (fun x hx => hp x (List.mem_cons_of_mem _ hx))
      (spawnInv_step s e (hp e (List.mem_cons_self e t)) h)

/-- C2 counterexample: two concurrent `ensureRunning()` calls from the
stopped configured state, after which the single start attempt fails the
readiness deadline. Exactly one spawn occurred, but caller 0 (who created
the attempt) observes failure while caller 1 (who entered after the child
handle was set) already observed success - the callers do not observe the
same outcome. -/
theorem c2_same_outcome_cex :
    (runSys initSys [Ev.enter 0, Ev.enter 1, Ev.resolveFail]).callers 0 =
      CallerSt.done Outcome.failed ∧
    (runSys initSys [Ev.enter 0, Ev.enter 1, Ev.resolveFail]).callers 1 =
      CallerSt.done Outcome.ok ∧
    (runSys initSys [Ev.enter 0, Ev.enter 1, Ev.resolveFail]).sup.spawnCount = 1 := by
  refine ⟨by decide, by decide, by decide⟩

/-- C2 amended: concurrent `ensureRunning()` calls issued while the
backend is not running cause exactly one spawn - any trace that begins
stopped, whose events are caller entries and child-exit events with at
least one entry, ends with spawn count exactly 1; however a caller that
enters while the child handle is set (and the system configured) returns
success immediately, without attaching to the in-flight attempt, so it
need not observe the attempt's outcome. -/
theorem c2_single_spawn (pre post : List Ev) (i : Nat) (s : Sys) (j : Nat) :
    ((∀ e ∈ pre, e = Ev.procExit) →
      (∀ e ∈ post, e = Ev.procExit ∨ ∃ k, e = Ev.enter k) →
      (runSys initSys (pre ++ Ev.enter i :: post)).sup.spawnCount = 1) ∧
    (s.sup.configured = true → s.sup.gatewayProc = true →
      s.callers j = CallerSt.idle →
      (stepSys s (Ev.enter j)).callers j = CallerSt.done Outcome.ok) := by
  constructor
  · intro hpre hpost
    have h1 : runSys initSys (pre ++ Ev.enter i :: post) =
        runSys (stepSys initSys (Ev.enter i)) post := by
      rw [runSys_append, runSys_procExits pre hpre]
      rfl
    rw [h1, stepSys_enter_init]
    exact (spawnInv_run post _ hpost ⟨rfl, rfl⟩).2
  · intro hc hg hi
    simp [stepSys, hi, hc, hg, setCaller]

/-- Witness for the amended C2 theorem: the two-caller trace with a
child-exit event interleaved, and the immediate-success fact at the state
reached after the first entry. -/
theorem c2_single_spawn_witness :
    (∀ e ∈ [Ev.procExit], e = Ev.procExit) ∧
    (∀ e ∈ [Ev.enter 1, Ev.procExit], e = Ev.procExit ∨ ∃ k, e = Ev.enter k) ∧
    (runSys initSys ([Ev.procExit] ++ Ev.enter 0 :: [Ev.enter 1, Ev.procExit])).sup.spawnCount = 1 ∧
    (stepSys initSys (Ev.enter 0)).sup.configured = true ∧
    (stepSys initSys (Ev.enter 0)).sup.gatewayProc = true ∧
    (stepSys initSys (Ev.enter 0)).callers 1 = CallerSt.idle ∧
    (stepSys (stepSys initSys (Ev.enter 0)) (Ev.enter 1)).callers 1 =
      CallerSt.done Outcome.ok := by
  refine ⟨by simp, ?_, ?_, by decide, by decide, by decide, ?_⟩
  · intro e he
    rcases List.mem_cons.mp he with rfl | he2
    · exact Or.inr ⟨1, rfl⟩
    · simp at he2
      subst he2
      exact Or.inl rfl
  · exact (c2_single_spawn [Ev.procExit] [Ev.enter 1, Ev.procExit] 0 initSys 1).1
      (by simp)
      (by
        intro e he
        rcases List.mem_cons.mp he with rfl | he2
        · exact Or.inr ⟨1, rfl⟩
        · simp at he2
          subst he2
          exact Or.inl rfl)
  · exact (c2_single_spawn [] [] 0 (stepSys initSys (Ev.enter 0)) 1).2
      (by decide) (by decide) (by decide)

/-- C3 counterexample: after a readiness-deadline failure of the single
start attempt, the child handle is not cleared, and a subsequent
`ensureRunning()` call is answered with success - the unready child is
treated as running, contradicting the claimed Failed marking. -/
theorem c3_failed_state_cex :
    (runSys initSys [Ev.enter 0, Ev.resolveFail, Ev.enter 1]).callers 0 =
      CallerSt.done Outcome.failed ∧
    (runSys initSys [Ev.enter 0, Ev.resolveFail, Ev.enter 1]).sup.gatewayProc = true ∧
    (runSys initSys [Ev.enter 0, Ev.resolveFail, Ev.enter 1]).callers 1 =
      CallerSt.done Outcome.ok := by
  refine ⟨by decide, by decide, by decide⟩

/-- C3 amended: when the readiness deadline elapses, every caller awaiting
the attempt observes the failure, the attempt is cleared and the
readiness-timeout error is recorded; but the child handle is left set, so
a later `ensureRunning()` call entered at the resulting state (configured,
handle set) immediately observes success - the unready child is treated as
running. -/
theorem c3_timeout_behavior (s : Sys) (j : Nat) (h : s.sup.starting = true) :
    (stepSys s Ev.resolveFail).sup.gatewayProc = s.sup.gatewayProc ∧
    (stepSys s Ev.resolveFail).sup.starting = false ∧
    (stepSys s Ev.resolveFail).sup.lastError = some gatewayTimeoutMsg ∧
    (∀ i, s.callers i = CallerSt.waiting →
      (stepSys s Ev.resolveFail).callers i = CallerSt.done Outcome.failed) ∧
    (s.sup.configured = true → s.sup.gatewayProc = true →
      s.callers j = CallerSt.idle →
      (stepSys (stepSys s Ev.resolveFail) (Ev.enter j)).callers j =
        CallerSt.done Outcome.ok) := by
  refine ⟨by simp [stepSys, h], by simp [stepSys, h], by simp [stepSys, h], ?_, ?_⟩
  · intro i hw
    simp [stepSys, h, resolveWaiters, hw]
  · intro hc hg hi
    simp [stepSys, h, resolveWaiters, hi, hc, hg, setCaller]

/-- Witness for the amended C3 theorem at the state reached after one
caller entered (attempt in flight, caller 0 waiting, caller 1 idle). -/
theorem c3_timeout_behavior_witness :
    (stepSys initSys (Ev.enter 0)).sup.starting = true ∧
    (stepSys (stepSys initSys (Ev.enter 0)) Ev.resolveFail).sup.gatewayProc =
      (stepSys initSys (Ev.enter 0)).sup.gatewayProc ∧
    (stepSys (stepSys initSys (Ev.enter 0)) Ev.resolveFail).callers 0 =
      CallerSt.done Outcome.failed ∧
    (stepSys (stepSys (stepSys initSys (Ev.enter 0)) Ev.resolveFail) (Ev.enter 1)).callers 1 =
      CallerSt.done Outcome.ok :=
  ⟨by decide,
   (c3_timeout_behavior (stepSys initSys (Ev.enter 0)) 1 (by decide)).1,
   (c3_timeout_behavior (stepSys initSys (Ev.enter 0)) 1 (by decide)).2.2.2.1 0 (by decide),
   (c3_timeout_behavior (stepSys initSys (Ev.enter 0)) 1 (by decide)).2.2.2.2
     (by decide) (by decide) (by decide)⟩

/-- C8: when the configuration store reports no configuration, an
`ensureRunning()` call returns the not-configured failure immediately and
the supervisor state - in particular the spawn count and the child
handle - is unchanged: nothing is spawned. -/
theorem c8_not_configured (s : Sys) (i : Nat)
    (hc : s.sup.configured = false) (hi : s.callers i = CallerSt.idle) :
    (stepSys s (Ev.enter i)).callers i = CallerSt.done Outcome.notConfigured ∧
    (stepSys s (Ev.enter i)).sup = s.sup := by
  constructor
  · simp [stepSys, hi, hc, setCaller]
  · simp [stepSys, hi, hc]

/-- Witness for C8 at the concrete unconfigured state. -/
theorem c8_not_configured_witness :
    unconfSys.sup.configured = false ∧
    unconfSys.callers 0 = CallerSt.idle ∧
    (stepSys unconfSys (Ev.enter 0)).callers 0 = CallerSt.done Outcome.notConfigured ∧
    (stepSys unconfSys (Ev.enter 0)).sup = unconfSys.sup :=
  ⟨by decide, by decide,
   (c8_not_configured unconfSys 0 (by decide) (by decide)).1,
   (c8_not_configured unconfSys 0 (by decide) (by decide)).2⟩

/-! ## C5 - oversized import uploads -/

theorem readBodyBuffer_none_append (pre : List Nat) :
    ∀ (rest : List Nat) (maxB t k : Nat),
      (readBodyBuffer pre maxB t k).1 = none →
      readBodyBuffer (pre ++ rest) maxB t k = readBodyBuffer pre maxB t k := by
  induction pre with
  | nil =>
    intro rest maxB t k h
    simp [readBodyBuffer] at h
  | cons c l ih =>
    intro rest maxB t k h
    by_cases hov : maxB < t + c
    · simp [readBodyBuffer, hov]
    · simp only [readBodyBuffer, if_neg hov] at h
      simp only [List.cons_append, readBodyBuffer, if_neg hov]
      exact ih rest maxB (t + c) (k + 1) h

/-- C5 counterexample: a 300MB upload against the 250MB ceiling, sent
while the gateway is running. The handler answers with status 500 (a
server error, not a payload-too-large client error), and the supervisor
state has changed before the rejection: the gateway was stopped. -/
theorem c5_mutation_cex :
    c5State.gatewayProc = true ∧
    (importRoute true false ("cfg") c5State [300 * 1024 * 1024] []).1.gatewayProc = false ∧
    (importRoute true false ("cfg") c5State [300 * 1024 * 1024] []).2.status = 500 := by
  refine ⟨by decide, by decide, by decide⟩

/-- C5 amended: an import upload rejected by the 250MB body cap is
answered before the body is fully read (the outcome does not depend on
any chunks past the overflow) and before any file is written (the `/data`
files and the temporary file are untouched), but the handler has already
stopped the gateway, and the rejection surfaces as a 500 server error
rather than a client-error response. -/
theorem c5_oversize_reject (restartFails : Bool) (configRel : String)
    (st : WrapSt) (entries : List ArchiveEntry) (chunks rest : List Nat)
    (h : (readBodyBuffer chunks MAX_IMPORT_BYTES 0 0).1 = none) :
    (importRoute true restartFails configRel st chunks entries).2.status = 500 ∧
    (importRoute true restartFails configRel st chunks entries).1.dataFiles = st.dataFiles ∧
    (importRoute true restartFails configRel st chunks entries).1.tmpWritten = st.tmpWritten ∧
    (importRoute true restartFails configRel st chunks entries).1.gatewayProc = false ∧
    importRoute true restartFails configRel st (chunks ++ rest) entries =
      importRoute true restartFails configRel st chunks entries := by
  rcases hrb : readBodyBuffer chunks MAX_IMPORT_BYTES 0 0 with ⟨o, k⟩
  rw [hrb] at h
  simp only at h
  subst h
  refine ⟨?_, ?_, ?_, ?_, ?_⟩ <;>
    simp [importRoute, hrb, readBodyBuffer_none_append chunks rest _ _ _ (by rw [hrb])]

/-- Witness for the amended C5 theorem at the concrete 300MB upload. -/
theorem c5_oversize_reject_witness :
    (readBodyBuffer [300 * 1024 * 1024] MAX_IMPORT_BYTES 0 0).1 = none ∧
    (importRoute true false ("cfg") c5State [300 * 1024 * 1024] []).1.dataFiles =
      c5State.dataFiles ∧
    importRoute true false ("cfg") c5State ([300 * 1024 * 1024] ++ [7]) [] =
      importRoute true false ("cfg") c5State [300 * 1024 * 1024] [] :=
  ⟨by decide,
   (c5_oversize_reject false ("cfg") c5State [] [300 * 1024 * 1024] [7] (by decide)).2.1,
   (c5_oversize_reject false ("cfg") c5State [] [300 * 1024 * 1024] [7] (by decide)).2.2.2.2⟩

/-! ## C7 - routing while unconfigured -/

theorem adminPaths_shape (p : String) (hm : p ∈ adminPaths) :
    jsStartsWith p ("/setup") = true ∨ p = "/healthz" := by
  fin_cases hm <;> decide

/-- C7: while the system is not configured, every plain HTTP request whose
path is not under the administrative prefix `/setup` and is not the public
health endpoint is answered with a redirect to the administrative entry
point `/setup`, and every protocol-upgrade handshake is terminated by
destroying the socket, regardless of the supervisor outcome. -/
theorem c7_unconfigured_routing (p : String) (e : Bool)
    (h1 : jsStartsWith p ("/setup") = false) (h2 : p ≠ "/healthz") :
    routeRequest false e p = RouteResult.redirect ("/setup") ∧
    handleUpgrade false e = UpgradeResult.destroyed := by
  constructor
  · have hmem : p ∉ adminPaths := by
      intro hm
      rcases adminPaths_shape p hm with hs | hh
      · rw [h1] at hs
        exact Bool.false_ne_true hs
      · exact h2 hh
    simp [routeRequest, hmem, h1]
  · rfl

/-- Witness for C7 at the root path. -/
theorem c7_unconfigured_routing_witness :
    jsStartsWith ("/") ("/setup") = false ∧
    ("/" : String) ≠ "/healthz" ∧
    routeRequest false false ("/") = RouteResult.redirect ("/setup") ∧
    handleUpgrade false false = UpgradeResult.destroyed :=
  ⟨by decide, by decide,
   (c7_unconfigured_routing ("/") false (by decide) (by decide)).1,
   (c7_unconfigured_routing ("/") false (by decide) (by decide)).2⟩

/-! ## C6 - console allowlist and parameter validation -/

/-- C6 counterexample: `openclaw.config.get` passes its caller-supplied
parameter straight into the spawned argument vector without the
restrictive character-class check - the parameter `a;b` (which contains
`;`, outside letters/digits/dash/underscore) is not rejected, and a
subprocess is spawned with it. -/
theorem c6_config_get_cex :
    paramOk ("a;b") = false ∧
    consoleEndpoint ("openclaw.config.get") ("a;b") =
      ConsoleAction.spawnCli (["config", "get", "a;b"]) := by
  refine ⟨by decide, by decide⟩

/-- C6 amended: an unknown command identifier is rejected with a 400
without spawning any subprocess; the commands `openclaw.devices.approve`
and `openclaw.plugins.enable` reject a non-empty parameter containing any
character outside letters, digits, dash, underscore, also without
spawning; but `openclaw.config.get` (and the numerically clamped
`openclaw.logs.tail`) do not enforce that character class. -/
theorem c6_allowlist_validation (cmd arg : String) :
    (ALLOWED_CONSOLE_COMMANDS.contains cmd = false →
      consoleRun cmd arg = ConsoleAction.reject 400 ("Command not allowed")) ∧
    (cmd = "openclaw.devices.approve" → jsTrim arg ≠ "" →
      paramOk (jsTrim arg) = false →
      consoleRun cmd arg = ConsoleAction.reject 400 ("Invalid device request ID")) ∧
    (cmd = "openclaw.plugins.enable" → jsTrim arg ≠ "" →
      paramOk (jsTrim arg) = false →
      consoleRun cmd arg = ConsoleAction.reject 400 ("Invalid plugin name")) := by
  refine ⟨?_, ?_, ?_⟩
  · intro h
    have hm : cmd ∉ ALLOWED_CONSOLE_COMMANDS := by
      intro hmem
      have htrue : List.elem cmd ALLOWED_CONSOLE_COMMANDS = true := List.elem_iff.mpr hmem
      have hcontains : ALLOWED_CONSOLE_COMMANDS.contains cmd =
          List.elem cmd ALLOWED_CONSOLE_COMMANDS := rfl
      rw [hcontains, htrue] at h
      exact Bool.noConfusion h
    simp [consoleRun, hm]
  · rintro rfl hne hbad
    simp [consoleRun, ALLOWED_CONSOLE_COMMANDS, hne, hbad]
  · rintro rfl hne hbad
    simp [consoleRun, ALLOWED_CONSOLE_COMMANDS, hne, hbad]

/-- Witness for the amended C6 theorem at concrete inputs. -/
theorem c6_allowlist_validation_witness :
    ALLOWED_CONSOLE_COMMANDS.contains ("rm.dash.rf") = false ∧
    consoleRun ("rm.dash.rf") ("") = ConsoleAction.reject 400 ("Command not allowed") ∧
    jsTrim ("a b") ≠ "" ∧
    paramOk (jsTrim ("a b")) = false ∧
    consoleRun ("openclaw.devices.approve") ("a b") =
      ConsoleAction.reject 400 ("Invalid device request ID") ∧
    consoleRun ("openclaw.plugins.enable") ("x|y") =
      ConsoleAction.reject 400 ("Invalid plugin name") :=
  ⟨by decide,
   (c6_allowlist_validation ("rm.dash.rf") ("")).1 (by decide),
   by decide, by decide,
   (c6_allowlist_validation ("openclaw.devices.approve") ("a b")).2.1 rfl
     (by decide) (by decide),
   (c6_allowlist_validation ("openclaw.plugins.enable") ("x|y")).2.2 rfl
     (by decide) (by decide)⟩

/-! ## C9 - backup-then-overwrite of the configuration file -/

theorem string_append_cancel (a b c : String) (h : a ++ b = a ++ c) : b = c := by
  rw [String.ext_iff] at h ⊢
  rw [String.data_append, String.data_append] at h
  exact List.append_cancel_left h

theorem backupPath_ne_self (p t : String) : backupPath p t ≠ p := by
  intro h
  have hlen := congrArg String.length h
  rw [backupPath, String.length_append, String.length_append] at hlen
  have h5 : (".bak-").length = 5 := rfl
  omega

theorem backupPath_inj (p t1 t2 : String)
    (h : backupPath p t1 = backupPath p t2) :
    sanitizeStamp t1 = sanitizeStamp t2 := by
  unfold backupPath at h
  exact string_append_cancel _ _ _ (string_append_cancel _ _ _ h)

/-- C9: overwriting an existing configuration file first creates exactly
one new timestamp-suffixed backup equal to the pre-write content (the
backup name was previously absent, is present afterwards, and no other
path changes); two successive writes with distinct (sanitized) timestamps
produce two distinct backup files, each equal to the file content at the
time of its respective write. -/
theorem c9_backup_on_write (fsys : Fsys) (p c0 c1 c2 t1 t2 : String)
    (h0 : fsys p = some c0)
    (_hb1 : fsys (backupPath p t1) = none)
    (_hb2 : fsys (backupPath p t2) = none)
    (hst : sanitizeStamp t1 ≠ sanitizeStamp t2) :
    (writeRaw fsys p c1 t1) p = some c1 ∧
    (writeRaw fsys p c1 t1) (backupPath p t1) = some c0 ∧
    (∀ q, q ≠ p → q ≠ backupPath p t1 → (writeRaw fsys p c1 t1) q = fsys q) ∧
    (writeRaw (writeRaw fsys p c1 t1) p c2 t2) p = some c2 ∧
    (writeRaw (writeRaw fsys p c1 t1) p c2 t2) (backupPath p t2) = some c1 ∧
    (∀ q, q ≠ p → q ≠ backupPath p t2 →
      (writeRaw (writeRaw fsys p c1 t1) p c2 t2) q = (writeRaw fsys p c1 t1) q) ∧
    backupPath p t1 ≠ backupPath p t2 ∧
    (writeRaw (writeRaw fsys p c1 t1) p c2 t2) (backupPath p t1) = some c0 := by
  have hne12 : backupPath p t1 ≠ backupPath p t2 :=
    fun h => hst (backupPath_inj p t1 t2 h)
  set fs1 := writeRaw fsys p c1 t1 with hdef1
  have hfs1 : fs1 =
      fun q => if q = p then some c1 else if q = backupPath p t1 then some c0 else fsys q := by
    rw [hdef1]
    simp only [writeRaw, h0]
  have h1p : fs1 p = some c1 := by
    rw [hfs1]
    simp
  have h1b : fs1 (backupPath p t1) = some c0 := by
    rw [hfs1]
    simp [backupPath_ne_self p t1]
  have h1other : ∀ q, q ≠ p → q ≠ backupPath p t1 → fs1 q = fsys q := by
    intro q hq1 hq2
    rw [hfs1]
    simp [hq1, hq2]
  set fs2 := writeRaw fs1 p c2 t2 with hdef2
  have hfs2 : fs2 =
      fun q => if q = p then some c2 else if q = backupPath p t2 then some c1 else fs1 q := by
    rw [hdef2]
    simp only [writeRaw, h1p]
  have h2p : fs2 p = some c2 := by
    rw [hfs2]
    simp
  have h2b : fs2 (backupPath p t2) = some c1 := by
    rw [hfs2]
    simp [backupPath_ne_self p t2]
  have h2other : ∀ q, q ≠ p → q ≠ backupPath p t2 → fs2 q = fs1 q := by
    intro q hq1 hq2
    rw [hfs2]
    simp [hq1, hq2]
  refine ⟨h1p, h1b, h1other, h2p, h2b, h2other, hne12, ?_⟩
  rw [h2other (backupPath p t1) (backupPath_ne_self p t1) hne12]
  exact h1b

/-- Witness for C9 at a concrete one-file file system and two distinct
timestamps. -/
theorem c9_backup_on_write_witness :
    c9Fs ("openclaw.json") = some ("old-content") ∧
    c9Fs (backupPath ("openclaw.json") ("t1")) = none ∧
    c9Fs (backupPath ("openclaw.json") ("t2")) = none ∧
    sanitizeStamp ("t1") ≠ sanitizeStamp ("t2") ∧
    (writeRaw c9Fs ("openclaw.json") ("v1") ("t1")) (backupPath ("openclaw.json") ("t1")) =
      some ("old-content") ∧
    (writeRaw (writeRaw c9Fs ("openclaw.json") ("v1") ("t1")) ("openclaw.json") ("v2") ("t2"))
      (backupPath ("openclaw.json") ("t2")) = some ("v1") ∧
    backupPath ("openclaw.json") ("t1") ≠ backupPath ("openclaw.json") ("t2") :=
  ⟨by decide, by decide, by decide, by decide,
   (c9_backup_on_write c9Fs ("openclaw.json") ("old-content") ("v1") ("v2") ("t1") ("t2")
      (by decide) (by decide) (by decide) (by decide)).2.1,
   (c9_backup_on_write c9Fs ("openclaw.json") ("old-content") ("v1") ("v2") ("t1") ("t2")
      (by decide) (by decide) (by decide) (by decide)).2.2.2.2.1,
   (c9_backup_on_write c9Fs ("openclaw.json") ("old-content") ("v1") ("v2") ("t1") ("t2")
      (by decide) (by decide) (by decide) (by decide)).2.2.2.2.2.2.1⟩

/-! ## C10 - totality of `runCmd` over its promise interface -/

theorem runCmd_sticky (evs : List ProcEvent) :
    ∀ (out : String) (r : CmdResult),
      (evs.foldl runCmdStep (out, PromiseSt.resolved r)).2 = PromiseSt.resolved r := by
  induction evs with
  | nil => intro out r; rfl
  | cons e t ih =>
    intro out r
    cases e with
    | outData s => exact ih (out ++ s) r
    | errData s => exact ih (out ++ s) r
    | errorEvt m => exact ih (out ++ spawnErrLine m) r
    | closeEvt c => exact ih out r

theorem runCmd_no_reject (evs : List ProcEvent) :
    ∀ (out : String) (st : PromiseSt),
      (∀ m, st ≠ PromiseSt.rejected m) →
      ∀ m, (evs.foldl runCmdStep (out, st)).2 ≠ PromiseSt.rejected m := by
  induction evs with
  | nil => intro out st h m; exact h m
  | cons e t ih =>
    intro out st h m
    cases e with
    | outData s => exact ih (out ++ s) st h m
    | errData s => exact ih (out ++ s) st h m
    | errorEvt m2 =>
      cases st with
      | pending => exact ih _ _ (fun m3 => by simp) m
      | resolved r => exact ih _ _ (fun m3 => by simp) m
      | rejected m0 => exact absurd rfl (h m0)
    | closeEvt c =>
      cases st with
      | pending => exact ih _ _ (fun m3 => by simp) m
      | resolved r => exact ih _ _ (fun m3 => by simp) m
      | rejected m0 => exact absurd rfl (h m0)

theorem runCmd_data_run (datas : List ProcEvent) :
    ∀ (out : String) (st : PromiseSt),
      (∀ e ∈ datas, isTerminal e = false) →
      datas.foldl runCmdStep (out, st) = (out ++ dataText datas, st) := by
  induction datas with
  | nil => intro out st _; simp [dataText]
  | cons e t ih =>
    intro out st h
    cases e with
    | outData s =>
      have := ih (out ++ s) st (fun x hx => h x (List.mem_cons_of_mem _ hx))
      simpa [dataText, String.append_assoc] using this
    | errData s =>
      have := ih (out ++ s) st (fun x hx => h x (List.mem_cons_of_mem _ hx))
      simpa [dataText, String.append_assoc] using this
    | errorEvt m => exact absurd (h _ (List.mem_cons_self _ t)) (by simp [isTerminal])
    | closeEvt c => exact absurd (h _ (List.mem_cons_self _ t)) (by simp [isTerminal])

theorem runCmd_terminal_resolves (evs : List ProcEvent) :
    ∀ (out : String),
      (∃ e ∈ evs, isTerminal e = true) →
      ∃ r, (evs.foldl runCmdStep (out, PromiseSt.pending)).2 = PromiseSt.resolved r := by
  induction evs with
  | nil =>
    rintro out ⟨e, he, _⟩
    simp at he
  | cons e t ih =>
    rintro out ⟨f, hf, hterm⟩
    cases e with
    | outData s =>
      rcases List.mem_cons.mp hf with rfl | hmem
      · simp [isTerminal] at hterm
      · exact ih (out ++ s) ⟨f, hmem, hterm⟩
    | errData s =>
      rcases List.mem_cons.mp hf with rfl | hmem
      · simp [isTerminal] at hterm
      · exact ih (out ++ s) ⟨f, hmem, hterm⟩
    | errorEvt m =>
      exact ⟨⟨127, out ++ spawnErrLine m⟩, runCmd_sticky t (out ++ spawnErrLine m) _⟩
    | closeEvt c =>
      exact ⟨⟨c.getD 0, out⟩, runCmd_sticky t out _⟩

/-- C10: `runCmd` is total over its promise interface - no child event
sequence ever rejects the promise; any sequence containing a terminal
(`error` or `close`) event resolves it with a `{code, output}` record;
when the subprocess cannot be spawned (an `error` event after only data
events) it resolves with code 127 and the spawn error appended to the
accumulated output; and a normal close delivering a `null` code resolves
with code 0 and the accumulated output. -/
theorem c10_runCmd_total (evs datas rest : List ProcEvent) (m : String) :
    (∀ m2, runCmdModel evs ≠ PromiseSt.rejected m2) ∧
    ((∃ e ∈ evs, isTerminal e = true) → ∃ r, runCmdModel evs = PromiseSt.resolved r) ∧
    ((∀ e ∈ datas, isTerminal e = false) →
      runCmdModel (datas ++ ProcEvent.errorEvt m :: rest) =
        PromiseSt.resolved ⟨127, dataText datas ++ spawnErrLine m⟩) ∧
    ((∀ e ∈ datas, isTerminal e = false) →
      runCmdModel (datas ++ ProcEvent.closeEvt none :: rest) =
        PromiseSt.resolved ⟨0, dataText datas⟩) := by
  refine ⟨?_, ?_, ?_, ?_⟩
  · exact runCmd_no_reject evs ("") PromiseSt.pending (fun m2 => by simp)
  · exact runCmd_terminal_resolves evs ("")
  · intro h
    unfold runCmdModel
    rw [List.foldl_append, runCmd_data_run datas ("") PromiseSt.pending h]
    have hout : ("" : String) ++ dataText datas = dataText datas := by simp
    rw [hout]
    show (rest.foldl runCmdStep
      (dataText datas ++ spawnErrLine m,
        PromiseSt.resolved ⟨127, dataText datas ++ spawnErrLine m⟩)).2 = _
    exact runCmd_sticky rest _ _
  · intro h
    unfold runCmdModel
    rw [List.foldl_append, runCmd_data_run datas ("") PromiseSt.pending h]
    have hout : ("" : String) ++ dataText datas = dataText datas := by simp
    rw [hout]
    show (rest.foldl runCmdStep
      (dataText datas, PromiseSt.resolved ⟨0, dataText datas⟩)).2 = _
    exact runCmd_sticky rest _ _

/-- Witness for C10 at concrete event sequences. -/
theorem c10_runCmd_total_witness :
    (∃ e ∈ [ProcEvent.closeEvt none], isTerminal e = true) ∧
    (∃ r, runCmdModel [ProcEvent.closeEvt none] = PromiseSt.resolved r) ∧
    (∀ e ∈ [ProcEvent.outData ("boot log")], isTerminal e = false) ∧
    runCmdModel ([ProcEvent.outData ("boot log")] ++
        ProcEvent.errorEvt ("Error: spawn ENOENT") :: []) =
      PromiseSt.resolved
        ⟨127, dataText [ProcEvent.outData ("boot log")] ++
          spawnErrLine ("Error: spawn ENOENT")⟩ ∧
    runCmdModel ([ProcEvent.outData ("boot log")] ++ ProcEvent.closeEvt none :: []) =
      PromiseSt.resolved ⟨0, dataText [ProcEvent.outData ("boot log")]⟩ :=
  ⟨⟨ProcEvent.closeEvt none, by simp, by decide⟩,
   (c10_runCmd_total [ProcEvent.closeEvt none] [] [] ("")).2.1
     ⟨ProcEvent.closeEvt none, by simp, by decide⟩,
   by decide,
   (c10_runCmd_total [] [ProcEvent.outData ("boot log")] [] ("Error: spawn ENOENT")).2.2.1
     (by decide),
   (c10_runCmd_total [] [ProcEvent.outData ("boot log")] [] ("")).2.2.2 (by decide)⟩

end ClawWrap
